import Mathlib

/-!
Shallow embedding of the RSB-Bot-Automation workflow (tasks.py).

The repository's core is a finite-state machine (class BotStateMachine,
built on the Python transitions library) plus a controller
(class RobotSpareBinBot) whose run method drives the workflow through
the states start, login, process_data, export, log_out and the terminal
states completed and error.

States and trigger names are strings in the source, so they are strings
here.  Firing a trigger searches the declared transition list for the
first entry whose trigger name matches and whose source matches the
current state (the source "*" is the wildcard of the transitions
library); a miss raises MachineError (the spec calls it
IllegalTransitionError) and leaves the state unchanged.

The controller's run method is modelled as a chain of steps in the
Except monad: each step either returns the updated (state, event trace)
pair or fails carrying the pair at the moment of the exception, which
the except-branch of run then routes to the handle_error transition.
External collaborator actions (browser, HTTP download, Excel, PDF) have
no internal logic; each is represented by a Bool telling whether the
call succeeds, recorded in an Env of action outcomes.  The trace records
fired triggers, per-record submission attempts, logged warnings, the two
export artifacts, and the run-level error log entry.
-/

/-- One declared transition of the machine: trigger name, source state
(possibly the wildcard "*") and destination state, as passed to
Machine.add_transition in BotStateMachine.init_ (tasks.py lines 39-45). -/
structure Transition where
  trigger : String
  source : String
  dest : String
deriving DecidableEq

/-- The exception raised by the transitions library when a trigger is
fired from a state that matches none of its declared sources; the spec
names it IllegalTransitionError.  It carries the trigger and the state
for the diagnostic message. -/
inductive MachineError where
  | machineError (trigger : String) (state : String)
deriving DecidableEq

namespace BotStateMachine

/-- The state list of BotStateMachine (tasks.py line 33). -/
def states : List String :=
  ["start", "login", "process_data", "export", "log_out", "error", "completed"]

/-- The initial state passed to Machine (tasks.py line 36, initial is
the string start). -/
def initialState : String := "start"

/-- The seven add_transition calls of BotStateMachine.init_
(tasks.py lines 39-45), in source order. -/
def transitions : List Transition :=
  [⟨"proceed_to_login", "start", "login"⟩,
   ⟨"process_sales_data", "login", "process_data"⟩,
   ⟨"export_results", "process_data", "export"⟩,
   ⟨"proceed_to_log_out", "export", "log_out"⟩,
   ⟨"complete_task", "log_out", "completed"⟩,
   ⟨"handle_error", "*", "error"⟩,
   ⟨"recover", "error", "start"⟩]

/-- The declared trigger names, in declaration order. -/
def triggerNames : List String :=
  ["proceed_to_login", "process_sales_data", "export_results",
   "proceed_to_log_out", "complete_task", "handle_error", "recover"]

/-- Wildcard source semantics of the transitions library: the source "*"
matches every state, any other source only itself. -/
def sourceMatches (src s : String) : Bool :=
  src == "*" || src == s

/-- Firing a trigger in state s: the first declared transition whose
trigger name matches and whose source matches s gives the new state;
otherwise MachineError is raised. -/
def fire (t s : String) : Except MachineError String :=
  match transitions.find? (fun tr => tr.trigger == t && sourceMatches tr.source s) with
  | some tr => Except.ok tr.dest
  | none => Except.error (MachineError.machineError t s)

/-- Firing seen from the model object: on success the state attribute is
set to the destination; on MachineError the state attribute is left
unchanged and the error is reported. -/
def fireOn (t s : String) : String × Option MachineError :=
  match fire t s with
  | Except.ok s2 => (s2, none)
  | Except.error e => (s, some e)

end BotStateMachine

/-- A row of the downloaded worksheet, as consumed by
fill_and_submit_sales_form (tasks.py lines 124-127): a mapping that may
or may not carry each of the four expected keys; a missing key makes the
subscript raise KeyError. -/
structure Record where
  firstName : Option String
  lastName : Option String
  salesTarget : Option String
  sales : Option String
deriving DecidableEq

/-- Exceptions that the body of fill_and_submit_sales_form can raise: a
KeyError from a missing record field, or a failure of one of the page
interactions (fill, select_option, click). -/
inductive PyError where
  | keyError (key : String)
  | actionError
deriving DecidableEq

/-- Dictionary access sales_rep of tasks.py lines 124-127: the field value
when present, KeyError when absent. -/
def getField (o : Option String) (key : String) : Except PyError String :=
  match o with
  | some v => Except.ok v
  | none => Except.error (PyError.keyError key)

/-- The try-body of fill_and_submit_sales_form (tasks.py lines 123-129):
the four dictionary accesses in source order, then the page interactions,
whose overall success for this call is the Bool pageOk. -/
def fill_and_submit_body (pageOk : Bool) (r : Record) : Except PyError Unit := do
  let _ ← getField r.firstName "First Name"
  let _ ← getField r.lastName "Last Name"
  let _ ← getField r.salesTarget "Sales Target"
  let _ ← getField r.sales "Sales"
  if pageOk then Except.ok () else Except.error PyError.actionError

/-- Which log call the record handler ends with: logging.info on success
(tasks.py line 129), logging.warning from the except branch (line 131). -/
inductive LogEv where
  | infoLog
  | warnLog
deriving DecidableEq

/-- fill_and_submit_sales_form (tasks.py lines 120-131): runs the body
and converts any exception into a warning log entry instead of
propagating it. -/
def fill_and_submit_sales_form (pageOk : Bool) (r : Record) : LogEv :=
  match fill_and_submit_body pageOk r with
  | Except.ok _ => LogEv.infoLog
  | Except.error _ => LogEv.warnLog

/-- The same call as seen by its caller fill_form_with_excel_data: an
Except-typed result recording whether an exception escapes the call.
Because the except branch of fill_and_submit_sales_form catches every
exception, the error constructor is never produced. -/
def fill_and_submit_call (pageOk : Bool) (r : Record) : Except PyError LogEv :=
  match fill_and_submit_body pageOk r with
  | Except.ok _ => Except.ok LogEv.infoLog
  | Except.error _ => Except.ok LogEv.warnLog

/-- Whether an Except value is a normal return. -/
def exceptIsOk {ε α : Type} (x : Except ε α) : Bool :=
  match x with
  | Except.ok _ => true
  | Except.error _ => false

/-- Observable events of one controller run: a successfully fired
trigger, a submission attempt for the record at a given index, a
warning logged for a failed submission, the screenshot artifact
(collect_results), the PDF artifact (export_as_pdf), and the
logging.error call of the except branch of run. -/
inductive Event where
  | fired (trigger : String)
  | submitAttempt (index : Nat)
  | warned
  | wroteScreenshot
  | wrotePdf
  | loggedError
deriving DecidableEq

/-- Events produced by the worksheet loop of fill_form_with_excel_data
(tasks.py lines 139-140) starting at record index i: one submission
attempt per record in input order, plus a warning whenever the record
handler ends in its except branch. -/
def submissionEventsFrom (sub : Nat → Bool) : Nat → List Record → List Event
  | _, [] => []
  | i, r :: rs =>
      Event.submitAttempt i ::
        ((match fill_and_submit_sales_form (sub i) r with
          | LogEv.infoLog => []
          | LogEv.warnLog => [Event.warned]) ++ submissionEventsFrom sub (i + 1) rs)

/-- Outcomes of the external collaborator actions for one run: one Bool
per fatal-on-failure action, the downloaded record set, and the
per-index success of the page interactions of each submission. -/
structure Env where
  openSiteOk : Bool
  loginOk : Bool
  downloadOk : Bool
  excelReadOk : Bool
  excelCloseOk : Bool
  screenshotOk : Bool
  pdfOk : Bool
  logOutOk : Bool
  records : List Record
  submitOk : Nat → Bool

/-- Replace the submission-related components of an Env, keeping every
fatal action outcome. -/
def setSubmission (env : Env) (recs : List Record) (sub : Nat → Bool) : Env :=
  ⟨env.openSiteOk, env.loginOk, env.downloadOk, env.excelReadOk, env.excelCloseOk,
   env.screenshotOk, env.pdfOk, env.logOutOk, recs, sub⟩

/-- A point of the run: the machine state together with the event trace
so far. -/
abbrev RunPoint := String × List Event

/-- One state-machine trigger call inside run: on success the state
advances and the firing is recorded; a MachineError is an exception
carrying the unchanged point. -/
def stepFire (t : String) (p : RunPoint) : Except RunPoint RunPoint :=
  match BotStateMachine.fire t p.1 with
  | Except.ok s2 => Except.ok (s2, p.2 ++ [Event.fired t])
  | Except.error _ => Except.error p

/-- One external action inside run: if the call succeeds its events are
appended, otherwise the exception propagates with the point unchanged. -/
def stepAct (ok : Bool) (evs : List Event) (p : RunPoint) : Except RunPoint RunPoint :=
  if ok then Except.ok (p.1, p.2 ++ evs) else Except.error p

/-- A step that only records events and cannot raise: the worksheet loop,
whose per-record failures are absorbed inside fill_and_submit_sales_form. -/
def stepPure (evs : List Event) (p : RunPoint) : Except RunPoint RunPoint :=
  Except.ok (p.1, p.2 ++ evs)

/-- The try-body of RobotSpareBinBot.run (tasks.py lines 57-79), one step
per statement: each trigger call, each collaborator call in source order.
The Excel handling of fill_form_with_excel_data (lines 135-144) is inlined:
open_workbook and read_worksheet_as_table, then the submission loop, then
close_workbook; its except branch only logs and re-raises, so it does not
change the exception flow. -/
def runBody (env : Env) (s0 : String) : Except RunPoint RunPoint :=
  Except.ok (s0, ([] : List Event))
    >>= stepFire "proceed_to_login"
    >>= stepAct env.openSiteOk []
    >>= stepAct env.loginOk []
    >>= stepFire "process_sales_data"
    >>= stepAct env.downloadOk []
    >>= stepAct env.excelReadOk []
    >>= stepPure (submissionEventsFrom env.submitOk 0 env.records)
    >>= stepAct env.excelCloseOk []
    >>= stepFire "export_results"
    >>= stepAct env.screenshotOk [Event.wroteScreenshot]
    >>= stepAct env.pdfOk [Event.wrotePdf]
    >>= stepFire "proceed_to_log_out"
    >>= stepAct env.logOutOk []
    >>= stepFire "complete_task"

/-- RobotSpareBinBot.run (tasks.py lines 54-83): the try-body, and on any
exception the except branch, which logs the error and fires handle_error
(lines 81-83).  s0 is the machine state when run is called; a fresh
controller has s0 = start. -/
def run (env : Env) (s0 : String) : RunPoint :=
  match runBody env s0 with
  | Except.ok p => p
  | Except.error p =>
      match BotStateMachine.fire "handle_error" p.1 with
      | Except.ok s2 => (s2, p.2 ++ [Event.loggedError, Event.fired "handle_error"])
      | Except.error _ => (p.1, p.2 ++ [Event.loggedError])

/-- The state of the machine at construction of RobotSpareBinBot
(tasks.py lines 51-52): the fresh BotStateMachine starts in its initial
state. -/
def RobotSpareBinBot.initState : String := BotStateMachine.initialState

/-- The triggers fired during a run, in order. -/
def firedOf (tr : List Event) : List String :=
  tr.filterMap (fun e => match e with | Event.fired t => some t | _ => none)

/-- The record indices whose submission was attempted, in order. -/
def attemptsOf (tr : List Event) : List Nat :=
  tr.filterMap (fun e => match e with | Event.submitAttempt i => some i | _ => none)

/-- The number of submission warnings logged during a run. -/
def warnCount (tr : List Event) : Nat :=
  tr.count Event.warned

/-- An Env in which every collaborator action succeeds and the record set
is a single fully populated record. -/
def envAllOk : Env :=
  ⟨true, true, true, true, true, true, true, true,
   [⟨some "Ada", some "Lovelace", some "10000", some "12000"⟩], fun _ => true⟩

/-! Helper lemmas. -/

@[simp]
theorem ok_bind {α β γ : Type} (b : β) (f : β → Except α γ) :
    (Except.ok b >>= f : Except α γ) = f b := rfl

@[simp]
theorem error_bind {α β γ : Type} (e : α) (f : β → Except α γ) :
    (Except.error e >>= f : Except α γ) = Except.error e := rfl

@[simp]
theorem fire_handle (s : String) :
    BotStateMachine.fire "handle_error" s = Except.ok "error" := rfl

theorem fire_proceed_ne (s : String) (hs : s ≠ "start") :
    BotStateMachine.fire "proceed_to_login" s =
      Except.error (MachineError.machineError "proceed_to_login" s) := by
  have h1 : ("start" == s) = false := beq_eq_false_iff_ne.mpr (Ne.symm hs)
  simp [BotStateMachine.fire, BotStateMachine.transitions, BotStateMachine.sourceMatches,
    List.find?, h1]

theorem mem_submissionEventsFrom {e : Event} (sub : Nat → Bool) (recs : List Record) (i : Nat)
    (h : e ∈ submissionEventsFrom sub i recs) :
    (∃ j, e = Event.submitAttempt j) ∨ e = Event.warned := by
  induction recs generalizing i with
  | nil => simp [submissionEventsFrom] at h
  | cons r rs ih =>
    simp only [submissionEventsFrom, List.mem_cons, List.mem_append] at h
    rcases h with rfl | h | h
    · exact Or.inl ⟨i, rfl⟩
    · cases hf : fill_and_submit_sales_form (sub i) r
      · rw [hf] at h; simp at h
      · rw [hf] at h; simp at h; exact Or.inr h
    · exact ih (i + 1) h

@[simp]
theorem wroteScreenshot_not_mem_submission (sub : Nat → Bool) (recs : List Record) (i : Nat) :
    Event.wroteScreenshot ∉ submissionEventsFrom sub i recs := by
  intro h
  rcases mem_submissionEventsFrom sub recs i h with ⟨j, hj⟩ | hj <;> simp at hj

@[simp]
theorem wrotePdf_not_mem_submission (sub : Nat → Bool) (recs : List Record) (i : Nat) :
    Event.wrotePdf ∉ submissionEventsFrom sub i recs := by
  intro h
  rcases mem_submissionEventsFrom sub recs i h with ⟨j, hj⟩ | hj <;> simp at hj

@[simp]
theorem fired_not_mem_submission (t : String) (sub : Nat → Bool) (recs : List Record) (i : Nat) :
    Event.fired t ∉ submissionEventsFrom sub i recs := by
  intro h
  rcases mem_submissionEventsFrom sub recs i h with ⟨j, hj⟩ | hj <;> simp at hj

@[simp]
theorem firedOf_submissionEventsFrom (sub : Nat → Bool) (recs : List Record) (i : Nat) :
    firedOf (submissionEventsFrom sub i recs) = [] := by
  induction recs generalizing i with
  | nil => rfl
  | cons r rs ih =>
    cases hf : fill_and_submit_sales_form (sub i) r <;>
      simp [submissionEventsFrom, firedOf, hf, List.filterMap_append] <;>
      simpa [firedOf] using ih (i + 1)

/-- The sanctioned rows of the spec's transition table: for each trigger,
its declared source (any state for the wildcard handle_error row) and its
declared destination. -/
def tableSanctions (t s d : String) : Prop :=
  (t = "proceed_to_login" ∧ s = "start" ∧ d = "login") ∨
  (t = "process_sales_data" ∧ s = "login" ∧ d = "process_data") ∨
  (t = "export_results" ∧ s = "process_data" ∧ d = "export") ∨
  (t = "proceed_to_log_out" ∧ s = "export" ∧ d = "log_out") ∨
  (t = "complete_task" ∧ s = "log_out" ∧ d = "completed") ∨
  (t = "handle_error" ∧ d = "error") ∨
  (t = "recover" ∧ s = "error" ∧ d = "start")

/-- Every successful firing is sanctioned by the table of declared
transitions. -/
theorem fire_ok_sanctions (t s d : String)
    (h : BotStateMachine.fire t s = Except.ok d) : tableSanctions t s d := by
  simp only [BotStateMachine.fire] at h
  cases hf : List.find?
      (fun tr => tr.trigger == t && BotStateMachine.sourceMatches tr.source s)
      BotStateMachine.transitions with
  | none => rw [hf] at h; exact absurd h (by simp)
  | some tr =>
    rw [hf] at h
    simp only [Except.ok.injEq] at h
    have hmem := List.mem_of_find?_eq_some hf
    have hp := List.find?_some hf
    simp only [BotStateMachine.transitions, List.mem_cons, List.not_mem_nil, or_false] at hmem
    rcases hmem with rfl | rfl | rfl | rfl | rfl | rfl | rfl <;>
      simp only [BotStateMachine.sourceMatches, Bool.and_eq_true, Bool.or_eq_true,
        beq_iff_eq] at hp <;>
      simp_all [tableSanctions]

/-- C1: the state machine realizes exactly the seven transitions of the
table: each declared (trigger, source) pair fires to its declared
destination, handle_error fires from every state (wildcard source) to
error, and every successful firing is one sanctioned by the table. -/
theorem stateMachine_table_exact :
    BotStateMachine.fire "proceed_to_login" "start" = Except.ok "login" ∧
    BotStateMachine.fire "process_sales_data" "login" = Except.ok "process_data" ∧
    BotStateMachine.fire "export_results" "process_data" = Except.ok "export" ∧
    BotStateMachine.fire "proceed_to_log_out" "export" = Except.ok "log_out" ∧
    BotStateMachine.fire "complete_task" "log_out" = Except.ok "completed" ∧
    (∀ s, BotStateMachine.fire "handle_error" s = Except.ok "error") ∧
    BotStateMachine.fire "recover" "error" = Except.ok "start" ∧
    ∀ t s d, BotStateMachine.fire t s = Except.ok d → tableSanctions t s d :=
  ⟨rfl, rfl, rfl, rfl, rfl, fun _ => rfl, rfl, fire_ok_sanctions⟩

/-- C1 witness: the completeness conjunct applied to the concrete firing
of recover from error. -/
theorem stateMachine_table_exact_witness : tableSanctions "recover" "error" "start" :=
  stateMachine_table_exact.2.2.2.2.2.2.2 "recover" "error" "start" rfl

/-- C2: for every declared trigger and every state that matches none of
the trigger's declared sources (wildcard included), firing raises
MachineError, the spec's IllegalTransitionError, and the current state is
left unchanged; in particular recover fired from any state other than
error fails this way. -/
theorem illegal_trigger_raises :
    (∀ t ∈ BotStateMachine.triggerNames, ∀ s ∈ BotStateMachine.states,
      (BotStateMachine.transitions.all
        fun tr => !(tr.trigger == t && BotStateMachine.sourceMatches tr.source s)) = true →
      BotStateMachine.fireOn t s = (s, some (MachineError.machineError t s))) ∧
    (∀ s ∈ BotStateMachine.states, s ≠ "error" →
      BotStateMachine.fireOn "recover" s = (s, some (MachineError.machineError "recover" s))) := by
  decide

/-- C2 witness: recover fired from start raises and leaves the state at
start. -/
theorem illegal_trigger_raises_witness :
    BotStateMachine.fireOn "recover" "start" =
      ("start", some (MachineError.machineError "recover" "start")) :=
  illegal_trigger_raises.2 "start" (by decide) (by decide)

/-- C10: the wildcard handle_error trigger is legal even from the two
terminal states: fired from completed it moves the machine to error, and
fired from error it is an accepted self-loop that leaves the state at
error. -/
theorem handle_error_from_terminal :
    BotStateMachine.fireOn "handle_error" "completed" = ("error", none) ∧
    BotStateMachine.fireOn "handle_error" "error" = ("error", none) :=
  ⟨rfl, rfl⟩

/-! Concrete firing facts used to reduce the run chain, and trace
accessors pushed through list constructors. -/

@[simp]
theorem fire_proceed_start :
    BotStateMachine.fire "proceed_to_login" "start" = Except.ok "login" := rfl

@[simp]
theorem fire_process_login :
    BotStateMachine.fire "process_sales_data" "login" = Except.ok "process_data" := rfl

@[simp]
theorem fire_export_process :
    BotStateMachine.fire "export_results" "process_data" = Except.ok "export" := rfl

@[simp]
theorem fire_logout_export :
    BotStateMachine.fire "proceed_to_log_out" "export" = Except.ok "log_out" := rfl

@[simp]
theorem fire_complete_logout :
    BotStateMachine.fire "complete_task" "log_out" = Except.ok "completed" := rfl

@[simp]
theorem firedOf_nil : firedOf [] = [] := rfl

@[simp]
theorem firedOf_append (a b : List Event) : firedOf (a ++ b) = firedOf a ++ firedOf b :=
  List.filterMap_append a b _

@[simp]
theorem firedOf_cons_fired (t : String) (l : List Event) :
    firedOf (Event.fired t :: l) = t :: firedOf l := rfl

@[simp]
theorem firedOf_cons_attempt (i : Nat) (l : List Event) :
    firedOf (Event.submitAttempt i :: l) = firedOf l := rfl

@[simp]
theorem firedOf_cons_warned (l : List Event) :
    firedOf (Event.warned :: l) = firedOf l := rfl

@[simp]
theorem firedOf_cons_screenshot (l : List Event) :
    firedOf (Event.wroteScreenshot :: l) = firedOf l := rfl

@[simp]
theorem firedOf_cons_pdf (l : List Event) :
    firedOf (Event.wrotePdf :: l) = firedOf l := rfl

@[simp]
theorem firedOf_cons_logged (l : List Event) :
    firedOf (Event.loggedError :: l) = firedOf l := rfl


/-- C3: on a freshly constructed controller, a run in which every
collaborator action succeeds ends with the machine in completed, and the
triggers fired are exactly proceed_to_login, process_sales_data,
export_results, proceed_to_log_out, complete_task, in that order, each
once. -/
theorem successful_run_completes (env : Env)
    (ho : env.openSiteOk = true) (hl : env.loginOk = true) (hd : env.downloadOk = true)
    (her : env.excelReadOk = true) (hec : env.excelCloseOk = true)
    (hsc : env.screenshotOk = true) (hpd : env.pdfOk = true) (hlo : env.logOutOk = true)
    (hsub : (env.records.enum.all
      fun p => fill_and_submit_sales_form (env.submitOk p.1) p.2 == LogEv.infoLog) = true) :
    (run env RobotSpareBinBot.initState).1 = "completed" ∧
    firedOf (run env RobotSpareBinBot.initState).2 =
      ["proceed_to_login", "process_sales_data", "export_results",
       "proceed_to_log_out", "complete_task"] := by
  obtain ⟨o, l, d, er, ec, sc, pd, lo, recs, sub⟩ := env
  dsimp only at ho hl hd her hec hsc hpd hlo
  subst ho hl hd her hec hsc hpd hlo
  unfold run
  refine ⟨?_, ?_⟩ <;>
    simp [runBody, stepFire, stepAct, stepPure, RobotSpareBinBot.initState,
      BotStateMachine.initialState]

/-- C3 witness: the all-success environment with one record. -/
theorem successful_run_completes_witness :
    (run envAllOk RobotSpareBinBot.initState).1 = "completed" ∧
    firedOf (run envAllOk RobotSpareBinBot.initState).2 =
      ["proceed_to_login", "process_sales_data", "export_results",
       "proceed_to_log_out", "complete_task"] :=
  successful_run_completes envAllOk rfl rfl rfl rfl rfl rfl rfl rfl (by decide)

/-- Peeling the last step of a successful bind chain. -/
theorem except_bind_ok' {α β γ : Type} {x : Except α β} {f : β → Except α γ} {r : γ}
    (h : (x >>= f) = Except.ok r) : ∃ b, x = Except.ok b ∧ f b = Except.ok r := by
  cases x with
  | ok b => exact ⟨b, rfl, h⟩
  | error e => exact absurd h (by simp)

/-- If the try-body of run returns normally, the machine is in completed:
the last statement of the body is the complete_task firing, whose only
sanctioned destination is completed. -/
theorem runBody_ok_completed (env : Env) (s0 : String) (p : RunPoint)
    (h : runBody env s0 = Except.ok p) : p.1 = "completed" := by
  unfold runBody at h
  obtain ⟨q, hq, hstep⟩ := except_bind_ok' h
  unfold stepFire at hstep
  cases hfire : BotStateMachine.fire "complete_task" q.1 with
  | ok s2 =>
    rw [hfire] at hstep
    simp only [Except.ok.injEq] at hstep
    subst hstep
    rcases fire_ok_sanctions _ _ _ hfire with ⟨h1, -, -⟩ | ⟨h1, -, -⟩ | ⟨h1, -, -⟩ |
        ⟨h1, -, -⟩ | ⟨-, -, hd⟩ | ⟨h1, -⟩ | ⟨h1, -, -⟩
    · exact absurd h1 (by decide)
    · exact absurd h1 (by decide)
    · exact absurd h1 (by decide)
    · exact absurd h1 (by decide)
    · exact hd
    · exact absurd h1 (by decide)
    · exact absurd h1 (by decide)
  | error e =>
    rw [hfire] at hstep
    exact absurd hstep (by simp)

/-- C4: whatever the collaborator outcomes and the state at entry, when
run returns the machine is in one of the two terminal states: completed
when the whole body succeeded, error otherwise, because the except
branch always reaches the wildcard handle_error transition. -/
theorem run_reaches_terminal (env : Env) (s0 : String) :
    (run env s0).1 = "completed" ∨ (run env s0).1 = "error" := by
  unfold run
  cases hb : runBody env s0 with
  | ok p => exact Or.inl (runBody_ok_completed env s0 p hb)
  | error p => right; simp

/-- C5: whenever the data-acquisition download raises, the run on a fresh
controller ends in error and the export_results trigger is never fired:
the failure happens strictly before the export firing point, whatever the
outcomes of the earlier actions. -/
theorem download_failure_errors (env : Env) (hd : env.downloadOk = false) :
    (run env RobotSpareBinBot.initState).1 = "error" ∧
    Event.fired "export_results" ∉ (run env RobotSpareBinBot.initState).2 := by
  obtain ⟨o, l, d, er, ec, sc, pd, lo, recs, sub⟩ := env
  dsimp only at hd
  subst hd
  unfold run
  cases o <;> cases l <;>
    refine ⟨?_, ?_⟩ <;>
      simp [runBody, stepFire, stepAct, stepPure, RobotSpareBinBot.initState,
        BotStateMachine.initialState]

/-- An Env whose only failing action is the Excel download. -/
def envDownloadFail : Env :=
  ⟨true, true, false, true, true, true, true, true, [], fun _ => true⟩

/-- C5 witness: the concrete download-failure environment. -/
theorem download_failure_errors_witness :
    (run envDownloadFail RobotSpareBinBot.initState).1 = "error" ∧
    Event.fired "export_results" ∉ (run envDownloadFail RobotSpareBinBot.initState).2 :=
  download_failure_errors envDownloadFail rfl

@[simp]
theorem attemptsOf_nil : attemptsOf [] = [] := rfl

@[simp]
theorem attemptsOf_append (a b : List Event) :
    attemptsOf (a ++ b) = attemptsOf a ++ attemptsOf b :=
  List.filterMap_append a b _

@[simp]
theorem attemptsOf_cons_fired (t : String) (l : List Event) :
    attemptsOf (Event.fired t :: l) = attemptsOf l := rfl

@[simp]
theorem attemptsOf_cons_attempt (i : Nat) (l : List Event) :
    attemptsOf (Event.submitAttempt i :: l) = i :: attemptsOf l := rfl

@[simp]
theorem attemptsOf_cons_warned (l : List Event) :
    attemptsOf (Event.warned :: l) = attemptsOf l := rfl

@[simp]
theorem attemptsOf_cons_screenshot (l : List Event) :
    attemptsOf (Event.wroteScreenshot :: l) = attemptsOf l := rfl

@[simp]
theorem attemptsOf_cons_pdf (l : List Event) :
    attemptsOf (Event.wrotePdf :: l) = attemptsOf l := rfl

@[simp]
theorem attemptsOf_cons_logged (l : List Event) :
    attemptsOf (Event.loggedError :: l) = attemptsOf l := rfl

@[simp]
theorem warnCount_nil : warnCount [] = 0 := rfl

@[simp]
theorem warnCount_append (a b : List Event) :
    warnCount (a ++ b) = warnCount a + warnCount b := by
  simp [warnCount, List.count_append]

@[simp]
theorem warnCount_cons_fired (t : String) (l : List Event) :
    warnCount (Event.fired t :: l) = warnCount l := by
  simp [warnCount, List.count_cons]

@[simp]
theorem warnCount_cons_attempt (i : Nat) (l : List Event) :
    warnCount (Event.submitAttempt i :: l) = warnCount l := by
  simp [warnCount, List.count_cons]

@[simp]
theorem warnCount_cons_warned (l : List Event) :
    warnCount (Event.warned :: l) = warnCount l + 1 := by
  simp [warnCount, List.count_cons]

@[simp]
theorem warnCount_cons_screenshot (l : List Event) :
    warnCount (Event.wroteScreenshot :: l) = warnCount l := by
  simp [warnCount, List.count_cons]

@[simp]
theorem warnCount_cons_pdf (l : List Event) :
    warnCount (Event.wrotePdf :: l) = warnCount l := by
  simp [warnCount, List.count_cons]

@[simp]
theorem warnCount_cons_logged (l : List Event) :
    warnCount (Event.loggedError :: l) = warnCount l := by
  simp [warnCount, List.count_cons]

/-- C6: a run over a record set of three records in which only the second
submission fails attempts all three submissions in input order, logs
exactly one warning (placed right after the second attempt, so it is the
warning for record 2), still fires export_results, and ends in completed:
the per-record except branch confines the failure to its own record. -/
theorem single_record_failure_continues (env : Env) (r1 r2 r3 : Record)
    (hrec : env.records = [r1, r2, r3])
    (ho : env.openSiteOk = true) (hl : env.loginOk = true) (hd : env.downloadOk = true)
    (her : env.excelReadOk = true) (hec : env.excelCloseOk = true)
    (hsc : env.screenshotOk = true) (hpd : env.pdfOk = true) (hlo : env.logOutOk = true)
    (h1 : fill_and_submit_sales_form (env.submitOk 0) r1 = LogEv.infoLog)
    (h2 : fill_and_submit_sales_form (env.submitOk 1) r2 = LogEv.warnLog)
    (h3 : fill_and_submit_sales_form (env.submitOk 2) r3 = LogEv.infoLog) :
    attemptsOf (run env RobotSpareBinBot.initState).2 = [0, 1, 2] ∧
    warnCount (run env RobotSpareBinBot.initState).2 = 1 ∧
    Event.fired "export_results" ∈ (run env RobotSpareBinBot.initState).2 ∧
    (run env RobotSpareBinBot.initState).1 = "completed" ∧
    (run env RobotSpareBinBot.initState).2 =
      [Event.fired "proceed_to_login", Event.fired "process_sales_data",
       Event.submitAttempt 0, Event.submitAttempt 1, Event.warned, Event.submitAttempt 2,
       Event.fired "export_results", Event.wroteScreenshot, Event.wrotePdf,
       Event.fired "proceed_to_log_out", Event.fired "complete_task"] := by
  obtain ⟨o, l, d, er, ec, sc, pd, lo, recs, sub⟩ := env
  dsimp only at hrec ho hl hd her hec hsc hpd hlo h1 h2 h3
  subst hrec ho hl hd her hec hsc hpd hlo
  unfold run
  refine ⟨?_, ?_, ?_, ?_, ?_⟩ <;>
    simp [runBody, stepFire, stepAct, stepPure, submissionEventsFrom, h1, h2, h3,
      RobotSpareBinBot.initState, BotStateMachine.initialState]

/-- A record with the four expected fields present. -/
def goodRecord : Record :=
  ⟨some "Ada", some "Lovelace", some "10000", some "12000"⟩

/-- A record missing the First Name field, so its submission raises
KeyError inside the handler. -/
def badRecord : Record :=
  ⟨none, some "Hopper", some "8000", some "9000"⟩

/-- An Env whose record set has three records of which exactly the second
fails to submit. -/
def envOneFailing : Env :=
  ⟨true, true, true, true, true, true, true, true,
   [goodRecord, badRecord, goodRecord], fun _ => true⟩

/-- C6 witness: the concrete three-record environment with the middle
record failing. -/
theorem single_record_failure_continues_witness :
    attemptsOf (run envOneFailing RobotSpareBinBot.initState).2 = [0, 1, 2] ∧
    warnCount (run envOneFailing RobotSpareBinBot.initState).2 = 1 ∧
    Event.fired "export_results" ∈ (run envOneFailing RobotSpareBinBot.initState).2 ∧
    (run envOneFailing RobotSpareBinBot.initState).1 = "completed" ∧
    (run envOneFailing RobotSpareBinBot.initState).2 =
      [Event.fired "proceed_to_login", Event.fired "process_sales_data",
       Event.submitAttempt 0, Event.submitAttempt 1, Event.warned, Event.submitAttempt 2,
       Event.fired "export_results", Event.wroteScreenshot, Event.wrotePdf,
       Event.fired "proceed_to_log_out", Event.fired "complete_task"] :=
  single_record_failure_continues envOneFailing goodRecord badRecord goodRecord
    rfl rfl rfl rfl rfl rfl rfl rfl rfl rfl rfl rfl

/-- C8 counterexample: run does not set the state back to start.  With
the machine left in completed, run neither passes through start nor
succeeds in firing proceed_to_login; the attempt raises, the except
branch fires handle_error, and the run ends in error. -/
theorem run_does_not_reset_counterexample :
    (run envAllOk "completed").1 = "error" ∧
    Event.fired "proceed_to_login" ∉ (run envAllOk "completed").2 := by
  decide

/-- C8 amended: the machine is initialized to start when the controller
is constructed (RobotSpareBinBot.init_ builds a fresh BotStateMachine
with initial state start), not by run; calling run with the machine in
any state other than start fires no transition except the handle_error
of the except branch and ends in error. -/
theorem machine_initialized_at_construction (env : Env) (s0 : String)
    (hs : s0 ≠ "start") :
    RobotSpareBinBot.initState = "start" ∧
    (run env s0).1 = "error" ∧
    firedOf (run env s0).2 = ["handle_error"] := by
  obtain ⟨o, l, d, er, ec, sc, pd, lo, recs, sub⟩ := env
  unfold run
  refine ⟨rfl, ?_, ?_⟩ <;>
    simp [runBody, stepFire, stepAct, stepPure, fire_proceed_ne s0 hs]

/-- C8 amended witness: run called with the machine still in completed. -/
theorem machine_initialized_at_construction_witness :
    RobotSpareBinBot.initState = "start" ∧
    (run envAllOk "completed").1 = "error" ∧
    firedOf (run envAllOk "completed").2 = ["handle_error"] :=
  machine_initialized_at_construction envAllOk "completed" (by decide)

/-- An Env whose only failing action is the final log out click. -/
def envLogOutFail : Env :=
  ⟨true, true, true, true, true, true, true, false, [], fun _ => true⟩

/-- C7 counterexample: a run that fails only at sign out ends in error
yet has already produced both export artifacts, so an errored run does
not always lack them. -/
theorem errored_run_artifacts_counterexample :
    (run envLogOutFail "start").1 = "error" ∧
    Event.wroteScreenshot ∈ (run envLogOutFail "start").2 ∧
    Event.wrotePdf ∈ (run envLogOutFail "start").2 := by
  decide

/-- C7 amended: a run on a fresh controller that ends in error without
ever firing export_results has produced neither export artifact; only a
failure at or after the export stage can leave artifacts behind. -/
theorem errored_run_before_export_no_artifacts (env : Env)
    (herr : (run env RobotSpareBinBot.initState).1 = "error")
    (hnoexp : Event.fired "export_results" ∉ (run env RobotSpareBinBot.initState).2) :
    Event.wroteScreenshot ∉ (run env RobotSpareBinBot.initState).2 ∧
    Event.wrotePdf ∉ (run env RobotSpareBinBot.initState).2 := by
  obtain ⟨o, l, d, er, ec, sc, pd, lo, recs, sub⟩ := env
  unfold run at herr hnoexp ⊢
  cases o with
  | false =>
    refine ⟨?_, ?_⟩ <;> simp [runBody, stepFire, stepAct, stepPure,
      RobotSpareBinBot.initState, BotStateMachine.initialState]
  | true => cases l with
    | false =>
      refine ⟨?_, ?_⟩ <;> simp [runBody, stepFire, stepAct, stepPure,
        RobotSpareBinBot.initState, BotStateMachine.initialState]
    | true => cases d with
      | false =>
        refine ⟨?_, ?_⟩ <;> simp [runBody, stepFire, stepAct, stepPure,
          RobotSpareBinBot.initState, BotStateMachine.initialState]
      | true => cases er with
        | false =>
          refine ⟨?_, ?_⟩ <;> simp [runBody, stepFire, stepAct, stepPure,
            RobotSpareBinBot.initState, BotStateMachine.initialState]
        | true => cases ec with
          | false =>
            refine ⟨?_, ?_⟩ <;> simp [runBody, stepFire, stepAct, stepPure,
              RobotSpareBinBot.initState, BotStateMachine.initialState]
          | true => cases sc with
            | false =>
              exact absurd (by simp [runBody, stepFire, stepAct, stepPure,
                RobotSpareBinBot.initState, BotStateMachine.initialState] :
                  Event.fired "export_results" ∈ _) hnoexp
            | true => cases pd with
              | false =>
                exact absurd (by simp [runBody, stepFire, stepAct, stepPure,
                  RobotSpareBinBot.initState, BotStateMachine.initialState] :
                    Event.fired "export_results" ∈ _) hnoexp
              | true => cases lo with
                | false =>
                  exact absurd (by simp [runBody, stepFire, stepAct, stepPure,
                    RobotSpareBinBot.initState, BotStateMachine.initialState] :
                      Event.fired "export_results" ∈ _) hnoexp
                | true =>
                  exact absurd herr (by simp [runBody, stepFire, stepAct, stepPure,
                    RobotSpareBinBot.initState, BotStateMachine.initialState])

/-- C7 amended witness: the download-failure run fires no export_results
and indeed leaves no artifact. -/
theorem errored_run_before_export_no_artifacts_witness :
    Event.wroteScreenshot ∉ (run envDownloadFail RobotSpareBinBot.initState).2 ∧
    Event.wrotePdf ∉ (run envDownloadFail RobotSpareBinBot.initState).2 :=
  errored_run_before_export_no_artifacts envDownloadFail (by decide) (by decide)

/-- Two chain results that agree on the machine state, whatever their
traces: used to show that the submission loop cannot influence the state
thread of run. -/
def SameState : Except RunPoint RunPoint → Except RunPoint RunPoint → Prop
  | Except.ok p, Except.ok q => p.1 = q.1
  | Except.error p, Except.error q => p.1 = q.1
  | _, _ => False

theorem sameState_bind {x y : Except RunPoint RunPoint}
    {f g : RunPoint → Except RunPoint RunPoint} (hxy : SameState x y)
    (hfg : ∀ p q, p.1 = q.1 → SameState (f p) (g q)) :
    SameState (x >>= f) (y >>= g) := by
  cases x with
  | ok p =>
    cases y with
    | ok q => exact hfg p q hxy
    | error q => exact hxy.elim
  | error p =>
    cases y with
    | ok q => exact hxy.elim
    | error q => exact hxy

theorem stepFire_sameState (t : String) (p q : RunPoint) (h : p.1 = q.1) :
    SameState (stepFire t p) (stepFire t q) := by
  unfold stepFire
  rw [h]
  cases BotStateMachine.fire t q.1 with
  | ok s2 => exact rfl
  | error e => exact h

theorem stepAct_sameState (ok : Bool) (evs evs' : List Event) (p q : RunPoint)
    (h : p.1 = q.1) : SameState (stepAct ok evs p) (stepAct ok evs' q) := by
  unfold stepAct
  cases ok
  · exact h
  · exact h

theorem stepPure_sameState (evs evs' : List Event) (p q : RunPoint) (h : p.1 = q.1) :
    SameState (stepPure evs p) (stepPure evs' q) := h

/-- The state thread of the try-body never depends on the record set or
on the per-record submission outcomes. -/
theorem runBody_submission_independent (env : Env) (recs : List Record)
    (sub : Nat → Bool) (s0 : String) :
    SameState (runBody (setSubmission env recs sub) s0) (runBody env s0) := by
  obtain ⟨o, l, d, er, ec, sc, pd, lo, recs0, sub0⟩ := env
  unfold runBody setSubmission
  dsimp only
  refine sameState_bind ?_ (fun p q h => stepFire_sameState _ p q h)
  refine sameState_bind ?_ (fun p q h => stepAct_sameState _ _ _ p q h)
  refine sameState_bind ?_ (fun p q h => stepFire_sameState _ p q h)
  refine sameState_bind ?_ (fun p q h => stepAct_sameState _ _ _ p q h)
  refine sameState_bind ?_ (fun p q h => stepAct_sameState _ _ _ p q h)
  refine sameState_bind ?_ (fun p q h => stepFire_sameState _ p q h)
  refine sameState_bind ?_ (fun p q h => stepAct_sameState _ _ _ p q h)
  refine sameState_bind ?_ (fun p q h => stepPure_sameState _ _ p q h)
  refine sameState_bind ?_ (fun p q h => stepAct_sameState _ _ _ p q h)
  refine sameState_bind ?_ (fun p q h => stepAct_sameState _ _ _ p q h)
  refine sameState_bind ?_ (fun p q h => stepFire_sameState _ p q h)
  refine sameState_bind ?_ (fun p q h => stepAct_sameState _ _ _ p q h)
  refine sameState_bind ?_ (fun p q h => stepAct_sameState _ _ _ p q h)
  refine sameState_bind ?_ (fun p q h => stepFire_sameState _ p q h)
  exact rfl

/-- Runs whose try-bodies agree on the state thread end in the same
machine state. -/
theorem run_sameState {A B : Env} {s0 : String}
    (h : SameState (runBody A s0) (runBody B s0)) :
    (run A s0).1 = (run B s0).1 := by
  unfold run
  cases hA : runBody A s0 with
  | ok p =>
    cases hB : runBody B s0 with
    | ok q => rw [hA, hB] at h; exact h
    | error q => rw [hA, hB] at h; exact h.elim
  | error p =>
    cases hB : runBody B s0 with
    | ok q => rw [hA, hB] at h; exact h.elim
    | error q => simp

/-- C9: fill_and_submit_sales_form returns normally on every record and
every failure mode of the underlying steps: its result as seen by the
caller is always a normal return, and it is a logged warning both when a
field such as First Name is missing (KeyError) and when the page
interaction fails; consequently the machine state reached by run is
identical whatever the record set and whatever submissions fail. -/
theorem record_failure_never_propagates (pageOk : Bool) (r : Record) (env : Env)
    (recs : List Record) (sub : Nat → Bool) (s0 : String) :
    exceptIsOk (fill_and_submit_call pageOk r) = true ∧
    fill_and_submit_call pageOk ⟨none, r.lastName, r.salesTarget, r.sales⟩ =
      Except.ok LogEv.warnLog ∧
    fill_and_submit_call false r = Except.ok LogEv.warnLog ∧
    (run (setSubmission env recs sub) s0).1 = (run env s0).1 := by
  refine ⟨?_, ?_, ?_, run_sameState (runBody_submission_independent env recs sub s0)⟩
  · obtain ⟨f1, f2, f3, f4⟩ := r
    cases pageOk <;> cases f1 <;> cases f2 <;> cases f3 <;> cases f4 <;> rfl
  · rfl
  · obtain ⟨f1, f2, f3, f4⟩ := r
    cases f1 <;> cases f2 <;> cases f3 <;> cases f4 <;> rfl
